import Mathlib

/-!
Verification of the rumqtt client core (`src/client/mod.rs`):
the `MqttClient` command validation and enqueue path (`_publish`,
`publish`, `publish_with_userdata`, `subscribe`) and the connection
supervisor's reconnect loop in `MqttClient::start`.

Machine integers are modelled as `Nat`; byte payloads as `List Nat`;
durations in whole seconds as `Nat`.  The command channel is modelled
as the list of commands enqueued so far (the channel is assumed open:
closed-channel send failures are a concurrency artifact outside the
shallow embedding).  The supervisor's loop, which in the source runs
until a `break`, is run here against a finite trace of session
outcomes and truncated when the trace is exhausted.
-/

namespace Rumqtt

/-- Quality of service, from the external `mqtt3` crate (`QoS`). -/
inductive QoS where
  | atMostOnce
  | atLeastOnce
  | exactlyOnce
deriving DecidableEq, Repr

/-- Packet identifier, from the external `mqtt3` crate: a 16-bit value.
Modelled as `Nat`; only the constant `zero` is used by the client. -/
abbrev PacketIdentifier : Type := Nat

/-- `PacketIdentifier::zero()` from the `mqtt3` crate. -/
def PacketIdentifier.zero : PacketIdentifier := 0

/-- The `Publish` packet struct from the external `mqtt3` crate. -/
structure Publish where
  dup : Bool
  qos : QoS
  retain : Bool
  topic_name : String
  pid : Option PacketIdentifier
  payload : List Nat
deriving DecidableEq, Repr

/-- A single subscription entry, `mqtt3::SubscribeTopic`. -/
structure SubscribeTopic where
  topic_path : String
  qos : QoS
deriving DecidableEq, Repr

/-- The `Subscribe` packet struct from the external `mqtt3` crate. -/
structure Subscribe where
  pid : PacketIdentifier
  topics : List SubscribeTopic
deriving DecidableEq, Repr

/-- The `mqtt3::Packet` variant type, restricted to the variants the
client handle constructs. -/
inductive Packet where
  | publish (p : Publish)
  | subscribe (s : Subscribe)
deriving DecidableEq, Repr

/-- `pub type UserData = Option<String>` (`src/client/mod.rs`). -/
abbrev UserData : Type := Option String

/-- The `Command` enum of `src/client/mod.rs`: `Mqtt((Packet, UserData))`
or `Halt`. -/
inductive Command where
  | mqtt (s : Packet × UserData)
  | halt
deriving DecidableEq

/-- `ClientError` variants used by `src/client/mod.rs` (the `error`
module itself is not in the sources; the two variants named here are
the ones the client constructs). -/
inductive ClientError where
  | packetSizeLimitExceeded
  | zeroSubscriptions
deriving DecidableEq, Repr

/-- Modelled from the spec: `gen_publish_packet` lives in the `packet`
module, which is absent from the sources; per the spec the client
"constructs a publish packet (duplicate-flag=false, retain=false,
identifier assigned later by the Session for QoS>0)".  The call site in
`_publish` is `gen_publish_packet(topic.into(), qos, None, false, false,
payload)`, so the arguments are taken positionally as
(topic, qos, pid, retain, dup, payload) and placed in the packet. -/
def gen_publish_packet (topic_name : String) (qos : QoS)
    (pid : Option PacketIdentifier) (retain : Bool) (dup : Bool)
    (payload : List Nat) : Publish :=
  { dup := dup, qos := qos, retain := retain,
    topic_name := topic_name, pid := pid, payload := payload }

/-- The user-facing client handle (`MqttClient` in `src/client/mod.rs`).
`nw_request_tx` is the producer end of the command channel, modelled as
the list of commands enqueued so far (FIFO order). -/
structure MqttClient where
  nw_request_tx : List Command
  max_packet_size : Nat

/-- `tx.send(cmd).wait()` on an open channel: append to the queue. -/
def MqttClient.send (c : MqttClient) (cmd : Command) : MqttClient :=
  { c with nw_request_tx := c.nw_request_tx ++ [cmd] }

/-- `MqttClient::_publish`: reject oversized payloads, otherwise build
the publish packet and enqueue one `Command::Mqtt`. -/
def MqttClient._publish (c : MqttClient) (topic : String) (qos : QoS)
    (payload : List Nat) (userdata : UserData) :
    Except ClientError MqttClient :=
  let payload_len := payload.length
  if payload_len > c.max_packet_size then
    .error .packetSizeLimitExceeded
  else
    let publish := gen_publish_packet topic qos none false false payload
    let packet := Packet.publish publish
    .ok (c.send (Command.mqtt (packet, userdata)))

/-- `MqttClient::publish`: `_publish` with no user data. -/
def MqttClient.publish (c : MqttClient) (topic : String) (qos : QoS)
    (payload : List Nat) : Except ClientError MqttClient :=
  c._publish topic qos payload none

/-- `MqttClient::publish_with_userdata`. -/
def MqttClient.publish_with_userdata (c : MqttClient) (topic : String)
    (qos : QoS) (payload : List Nat) (userdata : String) :
    Except ClientError MqttClient :=
  c._publish topic qos payload (some userdata)

/-- `MqttClient::subscribe`: reject an empty topic list, otherwise
build one `Subscribe` packet with `pid = PacketIdentifier::zero()`
carrying every (filter, qos) pair in submission order, and enqueue it
as one `Command::Mqtt`. -/
def MqttClient.subscribe (c : MqttClient) (topics : List (String × QoS)) :
    Except ClientError MqttClient :=
  if topics.length = 0 then
    .error .zeroSubscriptions
  else
    let sub_topics := topics.map fun t =>
      SubscribeTopic.mk t.1 t.2
    let subscribe := Subscribe.mk PacketIdentifier.zero sub_topics
    let packet := Packet.subscribe subscribe
    .ok (c.send (Command.mqtt (packet, none)))

/-- `ConnectCount` from `src/client/mod.rs`: whether any earlier
connection of this client handle fully succeeded. -/
inductive ConnectCount where
  | initialConnect
  | connectedBefore (n : Nat)
deriving DecidableEq, Repr

/-- `ConnectError` as seen by the supervisor.  The `error` module is
absent from the sources; the supervisor only distinguishes `Halt` from
everything else, and the spec's error taxonomy supplies the non-halt
kinds (handshake error, transport error, ping timeout). -/
inductive ConnectError where
  | halt
  | handshake
  | transport
  | pingTimeout
deriving DecidableEq, Repr

/-- `ReconnectOptions` (re-exported into `src/client/mod.rs`): never
retry, retry with a fixed delay only after some connection succeeded,
or always retry with a fixed delay.  Delays in whole seconds. -/
inductive ReconnectOptions where
  | never
  | afterFirstSuccess (d : Nat)
  | always (d : Nat)
deriving DecidableEq, Repr

/-- The result of one `connection.start()` call: `Ok(())` or an error
paired with the connection attempt count. -/
abbrev SessionOutcome : Type := Except (ConnectError × ConnectCount) Unit

/-- Observable events of the supervisor thread: one `attempt` per
`connection.start()` call, one `sleep` (with its duration in seconds)
per `thread::sleep(sleep_duration)` call. -/
inductive SupEvent where
  | attempt
  | sleep (secs : Nat)
deriving DecidableEq, Repr

/-- One pass through the body of the `'reconnect` loop after
`connection.start()` has returned, up to the `break` / `sleep`
decision: `none` means the loop `break`s (no sleep happens), `some sd`
means the loop falls through to `thread::sleep` with the current value
`sd` of the mutable `sleep_duration` (updated on exactly the branches
that assign it in the source). -/
def supervisorStep (rc : ReconnectOptions) (sleep_duration : Nat)
    (outcome : SessionOutcome) : Option Nat :=
  match outcome with
  | .ok _ => some sleep_duration
  | .error (e, connection_count) =>
    match e with
    | .halt => none
    | _ =>
      match rc with
      | .never => none
      | .afterFirstSuccess d =>
        if connection_count ≠ ConnectCount.initialConnect then some d
        else none
      | .always d => some d

/-- The `'reconnect` loop of `MqttClient::start`, run against a finite
trace of session outcomes and truncated when the trace is exhausted.
Each iteration calls `connection.start()` (consuming one outcome,
emitting `attempt`) and then either breaks or sleeps and loops. -/
def superviseFrom (rc : ReconnectOptions) (sleep_duration : Nat) :
    List SessionOutcome → List SupEvent
  | [] => []
  | outcome :: rest =>
    SupEvent.attempt ::
      match supervisorStep rc sleep_duration outcome with
      | none => []
      | some sd => SupEvent.sleep sd :: superviseFrom rc sd rest

/-- `MqttClient::start`'s supervisor thread: the loop begins with
`sleep_duration = Duration::from_secs(10)`. -/
def supervise (rc : ReconnectOptions) (outcomes : List SessionOutcome) :
    List SupEvent :=
  superviseFrom rc 10 outcomes

/-- Number of `connection.start()` calls in an event trace. -/
def attempts (events : List SupEvent) : Nat :=
  events.count SupEvent.attempt

/-- C1: for every payload with `len ≤ max_packet_size`, `publish` and
`publish_with_userdata` enqueue exactly one `Command::Mqtt` (the queue
grows by exactly that one command); for `len > max_packet_size` both
return `PacketSizeLimitExceeded` and no command is enqueued. -/
theorem publish_size_limit (c : MqttClient) (topic : String) (qos : QoS)
    (payload : List Nat) (ud : String) :
    (payload.length ≤ c.max_packet_size →
      c.publish topic qos payload =
        .ok (c.send (Command.mqtt
          (Packet.publish (gen_publish_packet topic qos none false false payload),
           none))) ∧
      c.publish_with_userdata topic qos payload ud =
        .ok (c.send (Command.mqtt
          (Packet.publish (gen_publish_packet topic qos none false false payload),
           some ud)))) ∧
    (c.max_packet_size < payload.length →
      c.publish topic qos payload = .error ClientError.packetSizeLimitExceeded ∧
      c.publish_with_userdata topic qos payload ud =
        .error ClientError.packetSizeLimitExceeded) := by
  constructor
  · intro h
    constructor <;>
      simp [MqttClient.publish, MqttClient.publish_with_userdata,
        MqttClient._publish, Nat.not_lt.mpr h]
  · intro h
    constructor <;>
      simp [MqttClient.publish, MqttClient.publish_with_userdata,
        MqttClient._publish, h]

/-- Witness for C1 at a concrete client (`max_packet_size = 3`): a
2-byte payload is enqueued as one mqtt command, a 4-byte payload is
rejected. -/
theorem publish_size_limit_witness :
    ((⟨[], 3⟩ : MqttClient).publish "t" QoS.atMostOnce [1, 2] =
        .ok ((⟨[], 3⟩ : MqttClient).send (Command.mqtt
          (Packet.publish
            (gen_publish_packet "t" QoS.atMostOnce none false false [1, 2]),
           none))) ∧
      (⟨[], 3⟩ : MqttClient).publish_with_userdata "t" QoS.atMostOnce [1, 2] "u" =
        .ok ((⟨[], 3⟩ : MqttClient).send (Command.mqtt
          (Packet.publish
            (gen_publish_packet "t" QoS.atMostOnce none false false [1, 2]),
           some "u")))) ∧
    ((⟨[], 3⟩ : MqttClient).publish "t" QoS.atMostOnce [1, 2, 3, 4] =
        .error ClientError.packetSizeLimitExceeded ∧
      (⟨[], 3⟩ : MqttClient).publish_with_userdata "t" QoS.atMostOnce [1, 2, 3, 4] "u" =
        .error ClientError.packetSizeLimitExceeded) :=
  ⟨(publish_size_limit ⟨[], 3⟩ "t" QoS.atMostOnce [1, 2] "u").1 (by decide),
   (publish_size_limit ⟨[], 3⟩ "t" QoS.atMostOnce [1, 2, 3, 4] "u").2 (by decide)⟩

/-- C2: `subscribe []` returns `ZeroSubscriptions` and enqueues
nothing; `subscribe [(f, g)]` enqueues exactly one command carrying a
`Subscribe` packet with the single filter. -/
theorem subscribe_empty_singleton (c : MqttClient) (f : String) (g : QoS) :
    c.subscribe [] = .error ClientError.zeroSubscriptions ∧
    c.subscribe [(f, g)] =
      .ok (c.send (Command.mqtt
        (Packet.subscribe
          (Subscribe.mk PacketIdentifier.zero [SubscribeTopic.mk f g]),
         none))) := by
  constructor <;> simp [MqttClient.subscribe]

/-- C9: for every non-empty topic list, `subscribe` enqueues exactly
one command carrying one `Subscribe` packet whose topics are all the
submitted (filter, qos) pairs in submission order and whose packet
identifier is zero. -/
theorem subscribe_nonempty (c : MqttClient) (topics : List (String × QoS))
    (h : topics ≠ []) :
    c.subscribe topics =
      .ok (c.send (Command.mqtt
        (Packet.subscribe
          (Subscribe.mk PacketIdentifier.zero
            (topics.map fun t => SubscribeTopic.mk t.1 t.2)),
         none))) := by
  have hlen : ¬ topics.length = 0 := by
    simpa [List.length_eq_zero] using h
  simp [MqttClient.subscribe, hlen]

/-- Witness for C9 at a concrete two-topic list. -/
theorem subscribe_nonempty_witness :
    (⟨[], 3⟩ : MqttClient).subscribe
        [("a", QoS.atMostOnce), ("b", QoS.atLeastOnce)] =
      .ok ((⟨[], 3⟩ : MqttClient).send (Command.mqtt
        (Packet.subscribe
          (Subscribe.mk PacketIdentifier.zero
            ([("a", QoS.atMostOnce), ("b", QoS.atLeastOnce)].map fun t =>
              SubscribeTopic.mk t.1 t.2)),
         none))) :=
  subscribe_nonempty ⟨[], 3⟩ [("a", QoS.atMostOnce), ("b", QoS.atLeastOnce)]
    (by decide)

/-- C8: every publish packet the client enqueues (for any topic, qos,
in-limit payload, and optional user data) has duplicate flag false,
retain flag false and no packet identifier at enqueue time. -/
theorem publish_packet_flags (c : MqttClient) (topic : String) (qos : QoS)
    (payload : List Nat) (ud : UserData)
    (h : payload.length ≤ c.max_packet_size) :
    c._publish topic qos payload ud =
      .ok (c.send (Command.mqtt
        (Packet.publish (gen_publish_packet topic qos none false false payload),
         ud))) ∧
    (gen_publish_packet topic qos none false false payload).dup = false ∧
    (gen_publish_packet topic qos none false false payload).retain = false ∧
    (gen_publish_packet topic qos none false false payload).pid = none ∧
    (gen_publish_packet topic qos none false false payload).topic_name = topic ∧
    (gen_publish_packet topic qos none false false payload).qos = qos ∧
    (gen_publish_packet topic qos none false false payload).payload = payload := by
  refine ⟨?_, rfl, rfl, rfl, rfl, rfl, rfl⟩
  simp [MqttClient._publish, Nat.not_lt.mpr h]

/-- Witness for C8 at a concrete in-limit publish. -/
theorem publish_packet_flags_witness :
    (⟨[], 3⟩ : MqttClient)._publish "t" QoS.atLeastOnce [7] (some "u") =
      .ok ((⟨[], 3⟩ : MqttClient).send (Command.mqtt
        (Packet.publish
          (gen_publish_packet "t" QoS.atLeastOnce none false false [7]),
         some "u"))) ∧
    (gen_publish_packet "t" QoS.atLeastOnce none false false [7]).dup = false ∧
    (gen_publish_packet "t" QoS.atLeastOnce none false false [7]).retain = false ∧
    (gen_publish_packet "t" QoS.atLeastOnce none false false [7]).pid = none ∧
    (gen_publish_packet "t" QoS.atLeastOnce none false false [7]).topic_name = "t" ∧
    (gen_publish_packet "t" QoS.atLeastOnce none false false [7]).qos =
      QoS.atLeastOnce ∧
    (gen_publish_packet "t" QoS.atLeastOnce none false false [7]).payload = [7] :=
  publish_packet_flags ⟨[], 3⟩ "t" QoS.atLeastOnce [7] (some "u") (by decide)

/-- C3: with policy `Never`, if the first `connection.start()` call
fails — with any error, any attempt count — the supervisor's whole
event trace is a single attempt: no sleep, no further session,
whatever outcomes would have followed. -/
theorem never_single_attempt (e : ConnectError) (count : ConnectCount)
    (rest : List SessionOutcome) :
    supervise ReconnectOptions.never (.error (e, count) :: rest) =
      [SupEvent.attempt] ∧
    attempts (supervise ReconnectOptions.never (.error (e, count) :: rest)) = 1 := by
  have h : supervise ReconnectOptions.never (.error (e, count) :: rest) =
      [SupEvent.attempt] := by
    cases e <;> rfl
  exact ⟨h, by rw [h]; rfl⟩

/-- C4: with policy `AfterFirstSuccess(d)`, a non-halt failure whose
attempt count is still `InitialConnect` ends the supervisor after that
single attempt: no sleep, no reattempt. -/
theorem after_first_success_initial_stops (d : Nat) (e : ConnectError)
    (rest : List SessionOutcome) (h : e ≠ ConnectError.halt) :
    supervise (ReconnectOptions.afterFirstSuccess d)
        (.error (e, ConnectCount.initialConnect) :: rest) =
      [SupEvent.attempt] ∧
    attempts (supervise (ReconnectOptions.afterFirstSuccess d)
        (.error (e, ConnectCount.initialConnect) :: rest)) = 1 := by
  have hs : supervise (ReconnectOptions.afterFirstSuccess d)
      (.error (e, ConnectCount.initialConnect) :: rest) = [SupEvent.attempt] := by
    cases e with
    | halt => exact absurd rfl h
    | handshake => rfl
    | transport => rfl
    | pingTimeout => rfl
  exact ⟨hs, by rw [hs]; rfl⟩

/-- Witness for C4 at a concrete handshake failure. -/
theorem after_first_success_initial_stops_witness :
    supervise (ReconnectOptions.afterFirstSuccess 5)
        (.error (ConnectError.handshake, ConnectCount.initialConnect) ::
          [.ok ()]) =
      [SupEvent.attempt] ∧
    attempts (supervise (ReconnectOptions.afterFirstSuccess 5)
        (.error (ConnectError.handshake, ConnectCount.initialConnect) ::
          [.ok ()])) = 1 :=
  after_first_success_initial_stops 5 ConnectError.handshake [.ok ()] (by decide)

/-- C5: with policy `Always(d)`, every non-halt failure — first or
later, any attempt count, any current sleep duration — is followed by
a sleep of `d` seconds and, when the session can be restarted, another
attempt. -/
theorem always_retries (d sd : Nat) (e : ConnectError) (count : ConnectCount)
    (tr : List SessionOutcome) (h : e ≠ ConnectError.halt) :
    superviseFrom (ReconnectOptions.always d) sd (.error (e, count) :: tr) =
      SupEvent.attempt :: SupEvent.sleep d ::
        superviseFrom (ReconnectOptions.always d) d tr ∧
    (tr ≠ [] →
      (superviseFrom (ReconnectOptions.always d) sd
          (.error (e, count) :: tr)).take 3 =
        [SupEvent.attempt, SupEvent.sleep d, SupEvent.attempt]) := by
  have hstep : supervisorStep (ReconnectOptions.always d) sd (.error (e, count)) =
      some d := by
    cases e with
    | halt => exact absurd rfl h
    | handshake => rfl
    | transport => rfl
    | pingTimeout => rfl
  have heq : superviseFrom (ReconnectOptions.always d) sd (.error (e, count) :: tr) =
      SupEvent.attempt :: SupEvent.sleep d ::
        superviseFrom (ReconnectOptions.always d) d tr := by
    simp [superviseFrom, hstep]
  refine ⟨heq, fun hne => ?_⟩
  cases tr with
  | nil => exact absurd rfl hne
  | cons o rest =>
    rw [heq]
    simp [superviseFrom]

/-- Witness for C5: a transport failure with a prior trace entry, under
`Always(5)` and sticky duration 10, sleeps 5 and attempts again. -/
theorem always_retries_witness :
    superviseFrom (ReconnectOptions.always 5) 10
        (.error (ConnectError.transport, ConnectCount.initialConnect) :: [.ok ()]) =
      SupEvent.attempt :: SupEvent.sleep 5 ::
        superviseFrom (ReconnectOptions.always 5) 5 [.ok ()] ∧
    (superviseFrom (ReconnectOptions.always 5) 10
        (.error (ConnectError.transport, ConnectCount.initialConnect) ::
          [.ok ()])).take 3 =
      [SupEvent.attempt, SupEvent.sleep 5, SupEvent.attempt] :=
  ⟨(always_retries 5 10 ConnectError.transport ConnectCount.initialConnect
      [.ok ()] (by decide)).1,
   (always_retries 5 10 ConnectError.transport ConnectCount.initialConnect
      [.ok ()] (by decide)).2 (List.cons_ne_nil _ _)⟩

/-- C6: a `Halt` failure ends the supervisor at once, for every policy,
every sticky duration, every attempt count: the trace is the single
attempt, with no sleep (so no backoff is applied) and no further
session regardless of remaining outcomes. -/
theorem halt_stops (rc : ReconnectOptions) (sd : Nat) (count : ConnectCount)
    (rest : List SessionOutcome) :
    superviseFrom rc sd (.error (ConnectError.halt, count) :: rest) =
      [SupEvent.attempt] := by
  rfl

/-- C7: the sleep duration is sticky supervisor state: `supervise`
initializes it to 10 seconds; the `AfterFirstSuccess`-with-prior-success
branch and the `Always` branch overwrite it with the policy delay; the
only other continuing path (a successful session run) keeps it
unchanged; and whenever a continuing step changes it, the policy was
one of those two variants with exactly that delay. -/
theorem sleep_duration_sticky (rc : ReconnectOptions) (d sd sd' : Nat)
    (e : ConnectError) (count : ConnectCount) (o : SessionOutcome)
    (tr : List SessionOutcome) :
    supervise rc tr = superviseFrom rc 10 tr ∧
    (e ≠ ConnectError.halt → count ≠ ConnectCount.initialConnect →
      supervisorStep (ReconnectOptions.afterFirstSuccess d) sd
        (.error (e, count)) = some d) ∧
    (e ≠ ConnectError.halt →
      supervisorStep (ReconnectOptions.always d) sd (.error (e, count)) =
        some d) ∧
    supervisorStep rc sd (.ok ()) = some sd ∧
    (supervisorStep rc sd o = some sd' → sd' ≠ sd →
      rc = ReconnectOptions.afterFirstSuccess sd' ∨
        rc = ReconnectOptions.always sd') := by
  refine ⟨rfl, ?_, ?_, rfl, ?_⟩
  · intro he hc
    cases e with
    | halt => exact absurd rfl he
    | handshake => simp [supervisorStep, hc]
    | transport => simp [supervisorStep, hc]
    | pingTimeout => simp [supervisorStep, hc]
  · intro he
    cases e with
    | halt => exact absurd rfl he
    | handshake => rfl
    | transport => rfl
    | pingTimeout => rfl
  · intro hstep hne
    cases o with
    | ok u =>
      simp [supervisorStep] at hstep
      exact absurd hstep.symm hne
    | error p =>
      obtain ⟨e', count'⟩ := p
      cases e' with
      | halt => simp [supervisorStep] at hstep
      | handshake =>
        cases rc with
        | never => simp [supervisorStep] at hstep
        | afterFirstSuccess d' =>
          by_cases hc : count' = ConnectCount.initialConnect
          · simp [supervisorStep, hc] at hstep
          · simp [supervisorStep, hc] at hstep
            simp [hstep]
        | always d' =>
          simp [supervisorStep] at hstep
          simp [hstep]
      | transport =>
        cases rc with
        | never => simp [supervisorStep] at hstep
        | afterFirstSuccess d' =>
          by_cases hc : count' = ConnectCount.initialConnect
          · simp [supervisorStep, hc] at hstep
          · simp [supervisorStep, hc] at hstep
            simp [hstep]
        | always d' =>
          simp [supervisorStep] at hstep
          simp [hstep]
      | pingTimeout =>
        cases rc with
        | never => simp [supervisorStep] at hstep
        | afterFirstSuccess d' =>
          by_cases hc : count' = ConnectCount.initialConnect
          · simp [supervisorStep, hc] at hstep
          · simp [supervisorStep, hc] at hstep
            simp [hstep]
        | always d' =>
          simp [supervisorStep] at hstep
          simp [hstep]

/-- Witness for C7 at concrete inputs: prior-success retry under
`AfterFirstSuccess 7`, `Always 7`, the `.ok` pass-through under
`Always 5` with sticky duration 10, and the overwrite detection. -/
theorem sleep_duration_sticky_witness :
    supervise (ReconnectOptions.always 5) [.ok ()] =
      superviseFrom (ReconnectOptions.always 5) 10 [.ok ()] ∧
    supervisorStep (ReconnectOptions.afterFirstSuccess 7) 10
        (.error (ConnectError.transport, ConnectCount.connectedBefore 1)) =
      some 7 ∧
    supervisorStep (ReconnectOptions.always 7) 10
        (.error (ConnectError.transport, ConnectCount.connectedBefore 1)) =
      some 7 ∧
    supervisorStep (ReconnectOptions.always 5) 10 (.ok ()) = some 10 ∧
    (ReconnectOptions.always 5 = ReconnectOptions.afterFirstSuccess 5 ∨
      ReconnectOptions.always 5 = ReconnectOptions.always 5) :=
  ⟨(sleep_duration_sticky (ReconnectOptions.always 5) 7 10 5
      ConnectError.transport (ConnectCount.connectedBefore 1)
      (.error (ConnectError.transport, ConnectCount.initialConnect)) [.ok ()]).1,
   (sleep_duration_sticky (ReconnectOptions.always 5) 7 10 5
      ConnectError.transport (ConnectCount.connectedBefore 1)
      (.error (ConnectError.transport, ConnectCount.initialConnect))
      [.ok ()]).2.1 (by decide) (by decide),
   (sleep_duration_sticky (ReconnectOptions.always 5) 7 10 5
      ConnectError.transport (ConnectCount.connectedBefore 1)
      (.error (ConnectError.transport, ConnectCount.initialConnect))
      [.ok ()]).2.2.1 (by decide),
   (sleep_duration_sticky (ReconnectOptions.always 5) 7 10 5
      ConnectError.transport (ConnectCount.connectedBefore 1)
      (.error (ConnectError.transport, ConnectCount.initialConnect))
      [.ok ()]).2.2.2.1,
   (sleep_duration_sticky (ReconnectOptions.always 5) 7 10 5
      ConnectError.transport (ConnectCount.connectedBefore 1)
      (.error (ConnectError.transport, ConnectCount.initialConnect))
      [.ok ()]).2.2.2.2 (by decide) (by decide)⟩

/-- C10: a successful session run never ends the reconnect loop: for
every policy (including `Never`) and every sticky duration, an `Ok`
outcome is followed by a sleep of the current sticky duration and,
when outcomes remain, another attempt. -/
theorem ok_continues (rc : ReconnectOptions) (sd : Nat)
    (tr : List SessionOutcome) :
    superviseFrom rc sd (.ok () :: tr) =
      SupEvent.attempt :: SupEvent.sleep sd :: superviseFrom rc sd tr ∧
    (tr ≠ [] →
      (superviseFrom rc sd (.ok () :: tr)).take 3 =
        [SupEvent.attempt, SupEvent.sleep sd, SupEvent.attempt]) := by
  have heq : superviseFrom rc sd (.ok () :: tr) =
      SupEvent.attempt :: SupEvent.sleep sd :: superviseFrom rc sd tr := by
    simp [superviseFrom, supervisorStep]
  refine ⟨heq, fun hne => ?_⟩
  cases tr with
  | nil => exact absurd rfl hne
  | cons o rest =>
    rw [heq]
    simp [superviseFrom]

/-- Witness for C10: under `Never` with the default duration, an `Ok`
run sleeps 10 seconds and attempts again. -/
theorem ok_continues_witness :
    superviseFrom ReconnectOptions.never 10 (.ok () :: [.ok ()]) =
      SupEvent.attempt :: SupEvent.sleep 10 ::
        superviseFrom ReconnectOptions.never 10 [.ok ()] ∧
    (superviseFrom ReconnectOptions.never 10 (.ok () :: [.ok ()])).take 3 =
      [SupEvent.attempt, SupEvent.sleep 10, SupEvent.attempt] :=
  ⟨(ok_continues ReconnectOptions.never 10 [.ok ()]).1,
   (ok_continues ReconnectOptions.never 10 [.ok ()]).2 (List.cons_ne_nil _ _)⟩

end Rumqtt
